import Mathlib

/-!
Shallow embedding of `src/runtime/instance.rs` (cozodb): the transaction and
identifier-allocation layer.  The Rust `Db` owns a RocksDB handle plus four
shared atomic counters (`last_attr_id`, `last_ent_id`, `last_tx_id`,
`n_sessions`) and a per-handle `session_id`.  Here the shared counter state is
threaded explicitly as a `Counters` value, the storage snapshot content is a
`Store` value passed explicitly (in Rust it is the `self.db` handle), and the
`Db` handle itself reduces to its `session_id` field.  `AtomicU64::fetch_add`
wraps on overflow, so counter increments are taken modulo 2^64 (`U64`); the
session counter is an `AtomicUsize`, modelled as 64-bit.  Fallible Rust code
(`anyhow::Result`) becomes `Except`; where the Rust code may have mutated
shared atomics before failing, the error value carries the mutated counters.
-/

namespace Cozo

/-- The modulus of the 64-bit machine integers used by the atomic counters:
2^64 written as a literal. -/
def U64 : Nat := 18446744073709551616

/-- Failure kinds surfaced by this layer: storage read failure during
bootstrap or snapshot resolution, and the `todo!()` panic of the
timestamp-to-transaction lookup. -/
inductive Err where
  | storage
  | unimplemented
  deriving DecidableEq

/-- The four shared counters of `Db`: `last_attr_id`, `last_ent_id`,
`last_tx_id` (all `Arc<AtomicU64>`) and `n_sessions` (`Arc<AtomicUsize>`). -/
structure Counters where
  last_attr_id : Nat
  last_ent_id : Nat
  last_tx_id : Nat
  n_sessions : Nat
  deriving DecidableEq

/-- Modelled from the spec: the three bootstrap-only read helpers
(`load_last_tx_id`, `load_last_attr_id`, `load_last_entity_id`) live on
`SessionTx` in `src/runtime/transact.rs`, which is not part of the given
source.  Per the spec they scan a dedicated key range holding one row per id
kind's high-water mark and can fail when storage cannot be queried; a `Store`
records the outcome each helper would produce against the current snapshot. -/
structure Store where
  load_last_attr_id : Except Err Nat
  load_last_entity_id : Except Err Nat
  load_last_tx_id : Except Err Nat

/-- The fields of `SessionTx` owned by this layer: the read-transaction id and
the optional write-transaction id.  The snapshot handle and the shared counter
references are represented by the explicitly threaded `Store` and
`Counters`. -/
structure SessionTx where
  r_tx_id : Nat
  w_tx_id : Option Nat
  deriving DecidableEq

/-- Modelled from the spec: `TxLog` (from `src/runtime/transact.rs`, not in
the given source) is a transaction-log entry carrying a transaction id and a
commit timestamp; it only occurs as the (never produced) result type of
`find_tx_before_timestamp_millis`. -/
structure TxLog where
  tx_id : Nat
  timestamp_millis : Int
  deriving DecidableEq

/-- A `Db` handle: the storage handle and counter `Arc`s are shared (threaded
explicitly), so the handle itself is just its `session_id` ordinal. -/
structure Db where
  session_id : Nat
  deriving DecidableEq

/-- `Db::transact` (instance.rs:72-87): `tx_id = at.unwrap_or(TxId(0))`;
build a `SessionTx` with `r_tx_id = tx_id`, `w_tx_id = None`; when `at` is
`None`, resolve `r_tx_id` by `load_last_tx_id` on the fresh snapshot
(propagating its failure).  No counter is mutated. -/
def Db.transact (store : Store) (c : Counters) (at_ : Option Nat) :
    Except Err (SessionTx × Counters) :=
  let tx_id : Nat := at_.getD 0
  let ret : SessionTx := { r_tx_id := tx_id, w_tx_id := none }
  match at_ with
  | none =>
    match store.load_last_tx_id with
    | .ok tid => .ok ({ ret with r_tx_id := tid }, c)
    | .error e => .error e
  | some _ => .ok (ret, c)

/-- `Db::transact_write` (instance.rs:88-101):
`last_tx_id = self.last_tx_id.fetch_add(1)` (wrapping on u64 overflow),
`cur_tx_id = last_tx_id + 1` (the post-increment value), returned as both
`r_tx_id` and `w_tx_id`.  The body contains no fallible operation. -/
def Db.transact_write (c : Counters) : SessionTx × Counters :=
  let last_tx_id := c.last_tx_id
  let cur_tx_id := (last_tx_id + 1) % U64
  ({ r_tx_id := cur_tx_id, w_tx_id := some cur_tx_id },
   { c with last_tx_id := cur_tx_id })

/-- `Db::load_last_ids` (instance.rs:63-71): open `transact(None)`, store its
`r_tx_id` into `last_tx_id`, then store `load_last_attr_id` into
`last_attr_id`, then `load_last_entity_id` into `last_ent_id`, propagating the
first failure.  The stores happen in that order, so a failing later read
leaves the earlier counters already overwritten: the error carries the
counters as mutated so far. -/
def Db.load_last_ids (store : Store) (c : Counters) :
    Except (Err × Counters) Counters :=
  match Db.transact store c none with
  | .error e => .error (e, c)
  | .ok (tx, c0) =>
    let c1 := { c0 with last_tx_id := tx.r_tx_id }
    match store.load_last_attr_id with
    | .error e => .error (e, c1)
    | .ok a =>
      let c2 := { c1 with last_attr_id := a }
      match store.load_last_entity_id with
      | .error e => .error (e, c2)
      | .ok ent => .ok { c2 with last_ent_id := ent }

/-- `Db::new_session` (instance.rs:46-61): when the receiver is the root
handle (`session_id == 0`) run `load_last_ids` first, propagating its failure;
then `old_count = n_sessions.fetch_add(1)` and return a handle with
`session_id = old_count + 1`.  Both the counter update and the ordinal wrap
modulo the 64-bit machine word. -/
def Db.new_session (self : Db) (store : Store) (c : Counters) :
    Except (Err × Counters) (Db × Counters) :=
  match (if self.session_id = 0 then Db.load_last_ids store c else .ok c) with
  | .error e => .error e
  | .ok c1 =>
    let old_count := c1.n_sessions
    let new_count := (old_count + 1) % U64
    .ok ({ session_id := new_count }, { c1 with n_sessions := new_count })

/-- `Db::find_tx_before_timestamp_millis` (instance.rs:107-109): the body is
`todo!()`, which panics unconditionally; the panic surfaces synchronously to
the caller and is modelled as an `unimplemented` error. -/
def Db.find_tx_before_timestamp_millis (ts : Int) :
    Except Err (Option TxLog) :=
  .error Err.unimplemented

/-- A sequence of `n` successive `transact_write` calls against one shared
counter state, returning the contexts in call order together with the final
counter state. -/
def writeSeq (c : Counters) : Nat → List SessionTx × Counters
  | 0 => ([], c)
  | n + 1 =>
    let p := Db.transact_write c
    let q := writeSeq p.2 n
    (p.1 :: q.1, q.2)

/-- A sequence of `n` successive `new_session` calls on one `Db` handle,
returning the ordinals of the created sessions in call order together with
the final counter state; a failing call aborts the sequence. -/
def newSessionSeq (db : Db) (store : Store) (c : Counters) :
    Nat → Except (Err × Counters) (List Nat × Counters)
  | 0 => .ok ([], c)
  | n + 1 =>
    match db.new_session store c with
    | .error e => .error e
    | .ok (d, c1) =>
      match newSessionSeq db store c1 n with
      | .error e => .error e
      | .ok (l, c2) => .ok (d.session_id :: l, c2)

/-- When all three bootstrap read helpers succeed, `load_last_ids` overwrites
the three id counters with the durable values and leaves the session counter
untouched. -/
theorem load_last_ids_ok_of_reads (store : Store) (c : Counters) (a e t : Nat)
    (ha : store.load_last_attr_id = .ok a)
    (he : store.load_last_entity_id = .ok e)
    (ht : store.load_last_tx_id = .ok t) :
    Db.load_last_ids store c = .ok ⟨a, e, t, c.n_sessions⟩ := by
  simp [Db.load_last_ids, Db.transact, ha, he, ht]

/-- `load_last_ids` never touches the session counter, whether it succeeds or
fails (even though a late failure leaves earlier id counters overwritten). -/
theorem load_last_ids_preserves_n_sessions (store : Store) (c : Counters) :
    (∀ c', Db.load_last_ids store c = .ok c' → c'.n_sessions = c.n_sessions)
    ∧ (∀ e c', Db.load_last_ids store c = .error (e, c') →
        c'.n_sessions = c.n_sessions) := by
  rcases store with ⟨sa, se, st⟩
  rcases st with e1 | t1 <;> rcases sa with e2 | a1 <;> rcases se with e3 | v1 <;>
    simp [Db.load_last_ids, Db.transact]

/-- A `new_session` call on a root handle over a store whose reads succeed:
bootstrap reseeds the id counters from the store and the session counter is
bumped. -/
theorem new_session_root_ok (db : Db) (store : Store) (c : Counters)
    (a e t : Nat) (h0 : db.session_id = 0)
    (ha : store.load_last_attr_id = .ok a)
    (he : store.load_last_entity_id = .ok e)
    (ht : store.load_last_tx_id = .ok t) :
    db.new_session store c
      = .ok (⟨(c.n_sessions + 1) % U64⟩,
             ⟨a, e, t, (c.n_sessions + 1) % U64⟩) := by
  unfold Db.new_session
  rw [if_pos h0, load_last_ids_ok_of_reads store c a e t ha he ht]

/-- A `new_session` call on a non-root handle: no bootstrap, no storage
access, only the session counter moves. -/
theorem new_session_nonroot (db : Db) (store : Store) (c : Counters)
    (h0 : db.session_id ≠ 0) :
    db.new_session store c
      = .ok (⟨(c.n_sessions + 1) % U64⟩,
             { c with n_sessions := (c.n_sessions + 1) % U64 }) := by
  unfold Db.new_session
  rw [if_neg h0]

/-- Any successful `new_session` call bumps the session counter by one
(modulo 2^64) and returns that post-increment value as the ordinal. -/
theorem new_session_ok_counts (db : Db) (store : Store) (c : Counters)
    (d : Db) (c' : Counters) (h : db.new_session store c = .ok (d, c')) :
    c'.n_sessions = (c.n_sessions + 1) % U64 ∧ d.session_id = c'.n_sessions := by
  unfold Db.new_session at h
  rcases hg : (if db.session_id = 0 then Db.load_last_ids store c else .ok c)
    with e | c1
  · rw [hg] at h; simp at h
  · rw [hg] at h
    have hn : c1.n_sessions = c.n_sessions := by
      split at hg
      · exact (load_last_ids_preserves_n_sessions store c).1 c1 hg
      · simp_all
    simp only [Except.ok.injEq, Prod.mk.injEq] at h
    obtain ⟨hd, hc⟩ := h
    subst hd
    subst hc
    simp [hn]

/-- C3: with a store whose bootstrap helpers report last_attr_id = 41,
last_ent_id = 7 and last_tx_id = 100, the first `new_session` on a fresh root
Database seeds the in-memory counters to {attr: 41, ent: 7, tx: 100} (and
session count 1), and the next `transact_write` on those counters returns a
context with w_tx_id = 101 (and r_tx_id = 101). -/
theorem bootstrap_seeds_counters_41_7_100 :
    (Db.mk 0).new_session ⟨.ok 41, .ok 7, .ok 100⟩ ⟨0, 0, 0, 0⟩
      = .ok (⟨1⟩, ⟨41, 7, 100, 1⟩)
    ∧ (Db.transact_write ⟨41, 7, 100, 1⟩).1.w_tx_id = some 101
    ∧ (Db.transact_write ⟨41, 7, 100, 1⟩).1.r_tx_id = 101 :=
  ⟨rfl, rfl, rfl⟩

/-- C7 counterexample: over a store whose last committed transaction id is
100, `transact(Some(101))` — a read at a transaction id strictly beyond the
last committed one — succeeds, returning a context with r_tx_id = 101, rather
than failing; the code performs no validation of the requested id. -/
theorem transact_beyond_last_committed_succeeds_cex :
    Db.transact ⟨.ok 41, .ok 7, .ok 100⟩ ⟨41, 7, 100, 0⟩ (some 101)
      = .ok ({ r_tx_id := 101, w_tx_id := none }, ⟨41, 7, 100, 0⟩)
    ∧ (100 : Nat) < 101 :=
  ⟨rfl, by decide⟩

/-- C7 (amended): `transact(Some(T))` returns a context with r_tx_id = T and
w_tx_id = None for every T, without validating T against the last committed
transaction id and without consulting or modifying any state; in particular it
does not fail when T is beyond the last committed transaction. -/
theorem transact_at_returns_requested_id (store : Store) (c : Counters)
    (t : Nat) :
    Db.transact store c (some t)
      = .ok ({ r_tx_id := t, w_tx_id := none }, c) :=
  rfl

/-- C8: for every timestamp, `find_tx_before_timestamp_millis` fails with the
unimplemented error — it never returns a `TxLog` and never returns a
successful `None`. -/
theorem find_tx_before_timestamp_always_fails (ts : Int) :
    Db.find_tx_before_timestamp_millis ts = .error Err.unimplemented :=
  rfl

/-- As long as the transaction counter does not wrap 2^64, a run of `n`
`transact_write` calls returns the contexts with ids previous+1, ...,
previous+n in order, and leaves the counter at previous+n. -/
theorem writeSeq_eq (n : Nat) : ∀ c : Counters, c.last_tx_id + n < U64 →
    writeSeq c n
      = ((List.range' (c.last_tx_id + 1) n).map fun k => ⟨k, some k⟩,
         { c with last_tx_id := c.last_tx_id + n }) := by
  induction n with
  | zero => intro c h; simp [writeSeq]
  | succ m ih =>
    intro c h
    have h1 : c.last_tx_id + 1 < U64 := by omega
    have hmod : (c.last_tx_id + 1) % U64 = c.last_tx_id + 1 :=
      Nat.mod_eq_of_lt h1
    have ih' := ih { c with last_tx_id := c.last_tx_id + 1 } (by simp; omega)
    simp only [writeSeq, Db.transact_write, hmod, ih', List.range'_succ,
      List.map_cons]
    have hadd : c.last_tx_id + 1 + m = c.last_tx_id + (m + 1) := by omega
    rw [hadd]

/-- C1 counterexample: with the transaction counter at 2^64 - 1 — a state the
code reaches by bootstrapping from a store whose durable last_tx_id is
2^64 - 1 — `transact_write` wraps: it returns w_tx_id = some 0, which is not
the previous counter value plus one (2^64), so the returned ids are not
strictly increasing beyond this point and the per-call contract fails. -/
theorem transact_write_wrap_cex :
    Db.load_last_ids ⟨.ok 0, .ok 0, .ok (U64 - 1)⟩ ⟨0, 0, 0, 0⟩
      = .ok ⟨0, 0, U64 - 1, 0⟩
    ∧ (Db.transact_write ⟨0, 0, U64 - 1, 0⟩).1.w_tx_id = some 0
    ∧ some (0 : Nat) ≠ some ((U64 - 1) + 1) :=
  ⟨rfl, rfl, by decide⟩

/-- C1 (amended): provided the transaction counter never wraps 2^64 during
the run, every `transact_write` call returns a context whose r_tx_id and
w_tx_id both equal the previous counter value plus one, and over any sequence
of `n` calls the returned w_tx_id values are exactly previous+1 through
previous+n: pairwise distinct, strictly increasing, never reissued. -/
theorem transact_write_ids_strictly_increasing (c : Counters) (n : Nat)
    (h : c.last_tx_id + n < U64) :
    ((writeSeq c n).1.map fun tx => tx.w_tx_id)
        = ((writeSeq c n).1.map fun tx => some tx.r_tx_id)
    ∧ ((writeSeq c n).1.map fun tx => tx.r_tx_id)
        = List.range' (c.last_tx_id + 1) n
    ∧ List.Pairwise (· < ·) ((writeSeq c n).1.map fun tx => tx.r_tx_id)
    ∧ (writeSeq c n).2 = { c with last_tx_id := c.last_tx_id + n } := by
  rw [writeSeq_eq n c h]
  have hr : ((fun tx : SessionTx => tx.r_tx_id) ∘ fun k => (⟨k, some k⟩ : SessionTx))
      = fun k => k := rfl
  refine ⟨?_, ?_, ?_, rfl⟩
  · simp [List.map_map]
  · simp only [List.map_map, hr]
    exact List.map_id' _
  · simp only [List.map_map, hr]
    have := List.pairwise_lt_range' (c.last_tx_id + 1) n
    simpa using this

/-- C1 witness: the amended theorem applied to a fresh counter state and a
run of three writes. -/
theorem transact_write_ids_strictly_increasing_witness :
    (⟨0, 0, 0, 0⟩ : Counters).last_tx_id + 3 < U64
    ∧ (((writeSeq ⟨0, 0, 0, 0⟩ 3).1.map fun tx => tx.w_tx_id)
        = ((writeSeq ⟨0, 0, 0, 0⟩ 3).1.map fun tx => some tx.r_tx_id)
      ∧ ((writeSeq ⟨0, 0, 0, 0⟩ 3).1.map fun tx => tx.r_tx_id)
        = List.range' ((⟨0, 0, 0, 0⟩ : Counters).last_tx_id + 1) 3
      ∧ List.Pairwise (· < ·)
          ((writeSeq ⟨0, 0, 0, 0⟩ 3).1.map fun tx => tx.r_tx_id)
      ∧ (writeSeq ⟨0, 0, 0, 0⟩ 3).2
        = { (⟨0, 0, 0, 0⟩ : Counters) with
              last_tx_id := (⟨0, 0, 0, 0⟩ : Counters).last_tx_id + 3 }) :=
  ⟨by decide, transact_write_ids_strictly_increasing ⟨0, 0, 0, 0⟩ 3 (by decide)⟩

/-- C2 counterexample: bootstrap is gated only on `session_id == 0`, so it
runs on every `new_session` call made on the root handle, not exactly once.
Concretely: bootstrap a fresh root over a store with durable ids
(41, 7, 100), then advance the transaction counter to 101 with a write; a
second `new_session` on the same root re-runs bootstrap and overwrites the
in-memory transaction counter back to the durable 100, which differs from
the in-memory 101 — so the re-run is neither absent nor a no-op. -/
theorem bootstrap_reruns_on_second_root_call_cex :
    (Db.mk 0).new_session ⟨.ok 41, .ok 7, .ok 100⟩ ⟨0, 0, 0, 0⟩
      = .ok (⟨1⟩, ⟨41, 7, 100, 1⟩)
    ∧ (Db.transact_write ⟨41, 7, 100, 1⟩).2 = ⟨41, 7, 101, 1⟩
    ∧ (Db.mk 0).new_session ⟨.ok 41, .ok 7, .ok 100⟩ ⟨41, 7, 101, 1⟩
      = .ok (⟨2⟩, ⟨41, 7, 100, 2⟩)
    ∧ (100 : Nat) ≠ 101 :=
  ⟨rfl, rfl, rfl, by decide⟩

/-- C2 (amended): bootstrap runs at every `new_session` call on the root
Database (ordinal 0) — not only the first — reseeding the three id counters
from the durable values each time, and never runs on a handle with a nonzero
ordinal; a redundant invocation overwrites the in-memory counters with the
durable values, which coincide with the in-memory ones only when nothing has
advanced them in between. -/
theorem bootstrap_runs_on_every_root_new_session (store : Store)
    (c : Counters) (a e t : Nat)
    (ha : store.load_last_attr_id = .ok a)
    (he : store.load_last_entity_id = .ok e)
    (ht : store.load_last_tx_id = .ok t) :
    ((Db.mk 0).new_session store c
        = .ok (⟨(c.n_sessions + 1) % U64⟩,
               ⟨a, e, t, (c.n_sessions + 1) % U64⟩))
    ∧ (∀ db : Db, db.session_id ≠ 0 →
        db.new_session store c
          = .ok (⟨(c.n_sessions + 1) % U64⟩,
                 { c with n_sessions := (c.n_sessions + 1) % U64 })) := by
  constructor
  · exact new_session_root_ok _ store c a e t rfl ha he ht
  · intro db h0
    exact new_session_nonroot db store c h0

/-- C2 witness: the amended theorem applied to a concrete store and a counter
state with stale in-memory ids. -/
theorem bootstrap_runs_on_every_root_new_session_witness :
    ((⟨.ok 41, .ok 7, .ok 100⟩ : Store).load_last_attr_id = .ok 41)
    ∧ (((Db.mk 0).new_session ⟨.ok 41, .ok 7, .ok 100⟩ ⟨1, 2, 3, 5⟩
        = .ok (⟨(5 + 1) % U64⟩, ⟨41, 7, 100, (5 + 1) % U64⟩))
      ∧ (Db.mk 9).new_session ⟨.ok 41, .ok 7, .ok 100⟩ ⟨1, 2, 3, 5⟩
        = .ok (⟨(5 + 1) % U64⟩,
               { (⟨1, 2, 3, 5⟩ : Counters) with n_sessions := (5 + 1) % U64 })) :=
  have h := bootstrap_runs_on_every_root_new_session
    ⟨.ok 41, .ok 7, .ok 100⟩ ⟨1, 2, 3, 5⟩ 41 7 100 rfl rfl rfl
  ⟨rfl, h.1, h.2 ⟨9⟩ (by decide)⟩

/-- C4: `transact` with no read_at resolves r_tx_id by the storage query
`load_last_tx_id` (propagating its failure); with read_at = some t it uses t
directly, succeeds, and is independent of the store; in both cases the
returned context has w_tx_id = none and the counters are returned
unchanged. -/
theorem transact_read_resolution (store : Store) (c : Counters) :
    (∀ t, store.load_last_tx_id = .ok t →
        Db.transact store c none = .ok ({ r_tx_id := t, w_tx_id := none }, c))
    ∧ (∀ e, store.load_last_tx_id = .error e →
        Db.transact store c none = .error e)
    ∧ (∀ t, Db.transact store c (some t)
        = .ok ({ r_tx_id := t, w_tx_id := none }, c))
    ∧ (∀ t (store2 : Store),
        Db.transact store c (some t) = Db.transact store2 c (some t)) := by
  refine ⟨?_, ?_, fun t => rfl, fun t store2 => rfl⟩
  · intro t ht
    simp [Db.transact, ht]
  · intro e hee
    simp [Db.transact, hee]

/-- C4 witness: the theorem applied to a store whose last committed
transaction id is 100, at read_at = none and read_at = some 5; the some-case
result coincides with the one over a store whose reads all fail. -/
theorem transact_read_resolution_witness :
    ((⟨.ok 41, .ok 7, .ok 100⟩ : Store).load_last_tx_id = .ok 100)
    ∧ Db.transact ⟨.ok 41, .ok 7, .ok 100⟩ ⟨0, 0, 0, 0⟩ none
        = .ok ({ r_tx_id := 100, w_tx_id := none }, ⟨0, 0, 0, 0⟩)
    ∧ Db.transact ⟨.ok 41, .ok 7, .ok 100⟩ ⟨0, 0, 0, 0⟩ (some 5)
        = .ok ({ r_tx_id := 5, w_tx_id := none }, ⟨0, 0, 0, 0⟩)
    ∧ Db.transact ⟨.ok 41, .ok 7, .ok 100⟩ ⟨0, 0, 0, 0⟩ (some 5)
        = Db.transact ⟨.error .storage, .error .storage, .error .storage⟩
            ⟨0, 0, 0, 0⟩ (some 5) :=
  ⟨rfl, (transact_read_resolution ⟨.ok 41, .ok 7, .ok 100⟩ ⟨0, 0, 0, 0⟩).1 100 rfl,
   (transact_read_resolution ⟨.ok 41, .ok 7, .ok 100⟩ ⟨0, 0, 0, 0⟩).2.2.1 5,
   (transact_read_resolution ⟨.ok 41, .ok 7, .ok 100⟩ ⟨0, 0, 0, 0⟩).2.2.2 5 _⟩

/-- As long as the session counter does not wrap 2^64, a successful run of
`n` `new_session` calls on one handle yields the ordinals previous+1, ...,
previous+n in order and leaves the session counter at previous+n. -/
theorem newSessionSeq_ordinals (db : Db) (store : Store) (n : Nat) :
    ∀ (c : Counters) (l : List Nat) (cf : Counters),
      c.n_sessions + n < U64 →
      newSessionSeq db store c n = .ok (l, cf) →
      l = List.range' (c.n_sessions + 1) n
      ∧ cf.n_sessions = c.n_sessions + n := by
  induction n with
  | zero =>
    intro c l cf h hseq
    simp only [newSessionSeq, Except.ok.injEq, Prod.mk.injEq] at hseq
    obtain ⟨hl, hcf⟩ := hseq
    subst hl
    subst hcf
    simp
  | succ m ih =>
    intro c l cf h hseq
    unfold newSessionSeq at hseq
    rcases h1 : db.new_session store c with e | p
    · rw [h1] at hseq
      simp at hseq
    · obtain ⟨d, c1⟩ := p
      rw [h1] at hseq
      dsimp only at hseq
      obtain ⟨hc1, hd⟩ := new_session_ok_counts db store c d c1 h1
      have hc1' : c1.n_sessions = c.n_sessions + 1 := by
        rw [hc1]
        exact Nat.mod_eq_of_lt (by omega)
      rcases h2 : newSessionSeq db store c1 m with e | q
      · rw [h2] at hseq
        simp at hseq
      · obtain ⟨l2, cf2⟩ := q
        rw [h2] at hseq
        dsimp only at hseq
        simp only [Except.ok.injEq, Prod.mk.injEq] at hseq
        obtain ⟨hl, hcf⟩ := hseq
        obtain ⟨hl2, hcf2⟩ := ih c1 l2 cf2 (by omega) h2
        subst hl
        subst hcf
        constructor
        · rw [List.range'_succ, hl2, hd, hc1']
        · omega

/-- C5: every successful `new_session` call moves the session counter to its
post-increment value (modulo 2^64) and returns exactly that value as the new
ordinal; consequently, as long as fewer than 2^64 sessions are created, a
successful run of `n` calls starting from a fresh Database yields the
ordinals 1, 2, ..., n — consecutive, without repeats, strictly increasing. -/
theorem session_ordinals_consecutive (db : Db) (store : Store) :
    (∀ (c : Counters) (d : Db) (c' : Counters),
        db.new_session store c = .ok (d, c') →
        c'.n_sessions = (c.n_sessions + 1) % U64
        ∧ d.session_id = c'.n_sessions)
    ∧ (∀ (n : Nat) (l : List Nat) (cf : Counters) (c : Counters),
        c.n_sessions = 0 → n < U64 →
        newSessionSeq db store c n = .ok (l, cf) →
        l = List.range' 1 n ∧ l.Nodup ∧ List.Pairwise (· < ·) l) := by
  constructor
  · intro c d c' h
    exact new_session_ok_counts db store c d c' h
  · intro n l cf c h0 hn hseq
    obtain ⟨hl, _⟩ := newSessionSeq_ordinals db store n c l cf (by omega) hseq
    rw [h0] at hl
    subst hl
    exact ⟨by norm_num, by simpa using List.nodup_range' (0 + 1) n,
      by simpa using List.pairwise_lt_range' (0 + 1) n⟩

/-- C5 witness: three `new_session` calls on a non-root handle over a fresh
counter state yield the ordinals [1, 2, 3]. -/
theorem session_ordinals_consecutive_witness :
    ((⟨0, 0, 0, 0⟩ : Counters).n_sessions = 0 ∧ 3 < U64
      ∧ newSessionSeq ⟨1⟩ ⟨.ok 0, .ok 0, .ok 0⟩ ⟨0, 0, 0, 0⟩ 3
          = .ok ([1, 2, 3], ⟨0, 0, 0, 3⟩))
    ∧ (([1, 2, 3] : List Nat) = List.range' 1 3
      ∧ ([1, 2, 3] : List Nat).Nodup
      ∧ List.Pairwise (· < ·) ([1, 2, 3] : List Nat)) :=
  ⟨⟨rfl, by decide, rfl⟩,
   (session_ordinals_consecutive ⟨1⟩ ⟨.ok 0, .ok 0, .ok 0⟩).2
     3 [1, 2, 3] ⟨0, 0, 0, 3⟩ ⟨0, 0, 0, 0⟩ rfl (by decide) rfl⟩

/-- C6: when bootstrap fails during a `new_session` call on the root
Database, that call returns the error, produces no Session, and leaves the
live-session counter untouched; the Database remains usable — a later
`new_session` on the same root over a readable store succeeds. -/
theorem failed_bootstrap_leaves_db_retryable (store : Store) (c : Counters)
    (err : Err) (cerr : Counters)
    (hfail : Db.load_last_ids store c = .error (err, cerr)) :
    (Db.mk 0).new_session store c = .error (err, cerr)
    ∧ cerr.n_sessions = c.n_sessions
    ∧ (∀ (store2 : Store) (a e t : Nat),
        store2.load_last_attr_id = .ok a →
        store2.load_last_entity_id = .ok e →
        store2.load_last_tx_id = .ok t →
        (Db.mk 0).new_session store2 c
          = .ok (⟨(c.n_sessions + 1) % U64⟩,
                 ⟨a, e, t, (c.n_sessions + 1) % U64⟩)) := by
  refine ⟨?_, ?_, ?_⟩
  · unfold Db.new_session
    rw [if_pos rfl, hfail]
  · exact (load_last_ids_preserves_n_sessions store c).2 err cerr hfail
  · intro store2 a e t ha he ht
    exact new_session_root_ok _ store2 c a e t rfl ha he ht

/-- C6 witness: over a store whose transaction-id read fails, `new_session`
on the fresh root fails with the storage error and unchanged counters; the
retry over a readable store succeeds. -/
theorem failed_bootstrap_leaves_db_retryable_witness :
    (Db.load_last_ids ⟨.ok 0, .ok 0, .error .storage⟩ ⟨0, 0, 0, 0⟩
        = .error (.storage, ⟨0, 0, 0, 0⟩))
    ∧ ((Db.mk 0).new_session ⟨.ok 0, .ok 0, .error .storage⟩ ⟨0, 0, 0, 0⟩
        = .error (.storage, ⟨0, 0, 0, 0⟩)
      ∧ (⟨0, 0, 0, 0⟩ : Counters).n_sessions
          = (⟨0, 0, 0, 0⟩ : Counters).n_sessions
      ∧ (Db.mk 0).new_session ⟨.ok 41, .ok 7, .ok 100⟩ ⟨0, 0, 0, 0⟩
          = .ok (⟨(0 + 1) % U64⟩, ⟨41, 7, 100, (0 + 1) % U64⟩)) :=
  have h := failed_bootstrap_leaves_db_retryable
    ⟨.ok 0, .ok 0, .error .storage⟩ ⟨0, 0, 0, 0⟩ .storage ⟨0, 0, 0, 0⟩ rfl
  ⟨rfl, h.1, h.2.1, h.2.2 ⟨.ok 41, .ok 7, .ok 100⟩ 41 7 100 rfl rfl rfl⟩

/-- C9: `new_session` on a non-root handle (ordinal at least 1) is
independent of the store (it never queries storage), always succeeds, leaves
the three id counters unchanged, and its only state effect is moving the
session counter up by one (stated away from the 2^64 wrap point, which no
run of fewer than 2^64 session creations can reach). -/
theorem non_root_new_session_frame (db : Db) (store store2 : Store)
    (c : Counters) (h1 : 1 ≤ db.session_id) (h2 : c.n_sessions + 1 < U64) :
    db.new_session store c = db.new_session store2 c
    ∧ db.new_session store c
        = .ok (⟨c.n_sessions + 1⟩,
               { c with n_sessions := c.n_sessions + 1 }) := by
  have h0 : db.session_id ≠ 0 := by omega
  have hm : (c.n_sessions + 1) % U64 = c.n_sessions + 1 := Nat.mod_eq_of_lt h2
  rw [new_session_nonroot db store c h0, new_session_nonroot db store2 c h0, hm]
  exact ⟨rfl, rfl⟩

/-- C9 witness: the theorem applied to the handle with ordinal 1, a readable
store versus an unreadable one, and a concrete counter state. -/
theorem non_root_new_session_frame_witness :
    (1 ≤ (⟨1⟩ : Db).session_id ∧ (⟨3, 4, 5, 6⟩ : Counters).n_sessions + 1 < U64)
    ∧ ((⟨1⟩ : Db).new_session ⟨.ok 41, .ok 7, .ok 100⟩ ⟨3, 4, 5, 6⟩
        = (⟨1⟩ : Db).new_session
            ⟨.error .storage, .error .storage, .error .storage⟩ ⟨3, 4, 5, 6⟩
      ∧ (⟨1⟩ : Db).new_session ⟨.ok 41, .ok 7, .ok 100⟩ ⟨3, 4, 5, 6⟩
        = .ok (⟨(⟨3, 4, 5, 6⟩ : Counters).n_sessions + 1⟩,
               { (⟨3, 4, 5, 6⟩ : Counters) with
                   n_sessions := (⟨3, 4, 5, 6⟩ : Counters).n_sessions + 1 })) :=
  ⟨⟨by decide, by decide⟩,
   non_root_new_session_frame ⟨1⟩ ⟨.ok 41, .ok 7, .ok 100⟩
     ⟨.error .storage, .error .storage, .error .storage⟩ ⟨3, 4, 5, 6⟩
     (by decide) (by decide)⟩

/-- C10 counterexample: with the transaction counter at 2^64 - 1 (seedable
from a store whose durable last_tx_id is 2^64 - 1), `transact_write` sets the
counter to 0 rather than incrementing it by exactly one. -/
theorem transact_write_increment_wrap_cex :
    (Db.transact_write ⟨5, 6, U64 - 1, 2⟩).2.last_tx_id = 0
    ∧ (0 : Nat) ≠ (U64 - 1) + 1 :=
  ⟨rfl, by decide⟩

/-- C10 (amended): `transact` leaves all four shared counters unchanged in
every case, and `transact_write` changes only the transaction-id counter,
incrementing it by exactly one whenever the counter does not wrap 2^64 (it
moves to (previous + 1) mod 2^64 in general), leaving the attribute-id,
entity-id, and session counters unchanged. -/
theorem transact_frame_effects (store : Store) (c : Counters)
    (a : Option Nat) (h : c.last_tx_id + 1 < U64) :
    ((Db.transact store c a).map fun p => p.2)
        = ((Db.transact store c a).map fun _ => c)
    ∧ (Db.transact_write c).2.last_attr_id = c.last_attr_id
    ∧ (Db.transact_write c).2.last_ent_id = c.last_ent_id
    ∧ (Db.transact_write c).2.n_sessions = c.n_sessions
    ∧ (Db.transact_write c).2.last_tx_id = c.last_tx_id + 1 := by
  refine ⟨?_, rfl, rfl, rfl, ?_⟩
  · rcases a with _ | t
    · cases hst : store.load_last_tx_id <;> simp [Db.transact, hst, Except.map]
    · rfl
  · simp [Db.transact_write, Nat.mod_eq_of_lt h]

/-- C10 witness: the theorem applied to a concrete store, counter state, and
the read_at = none case. -/
theorem transact_frame_effects_witness :
    ((⟨5, 6, 100, 2⟩ : Counters).last_tx_id + 1 < U64)
    ∧ (((Db.transact ⟨.ok 41, .ok 7, .ok 100⟩ ⟨5, 6, 100, 2⟩ none).map
          fun p => p.2)
        = ((Db.transact ⟨.ok 41, .ok 7, .ok 100⟩ ⟨5, 6, 100, 2⟩ none).map
            fun _ => (⟨5, 6, 100, 2⟩ : Counters))
      ∧ (Db.transact_write ⟨5, 6, 100, 2⟩).2.last_attr_id
          = (⟨5, 6, 100, 2⟩ : Counters).last_attr_id
      ∧ (Db.transact_write ⟨5, 6, 100, 2⟩).2.last_ent_id
          = (⟨5, 6, 100, 2⟩ : Counters).last_ent_id
      ∧ (Db.transact_write ⟨5, 6, 100, 2⟩).2.n_sessions
          = (⟨5, 6, 100, 2⟩ : Counters).n_sessions
      ∧ (Db.transact_write ⟨5, 6, 100, 2⟩).2.last_tx_id
          = (⟨5, 6, 100, 2⟩ : Counters).last_tx_id + 1) :=
  ⟨by decide,
   transact_frame_effects ⟨.ok 41, .ok 7, .ok 100⟩ ⟨5, 6, 100, 2⟩ none
     (by decide)⟩

end Cozo
